import Mathlib

/-!
Verification of the zone/valve scheduling and leak-detection engine of the
irrigation-system repository.  The definitions below are shallow embeddings of
the JavaScript source (system.js / valve.js / watertank.js and the older
IrrigationSystem_accfactory.js): timers become explicit tick functions on
state, JavaScript numbers become ℚ (ℤ for whole-second / millisecond
timestamps) except in the water-tank arithmetic, where divisions can produce
NaN and infinities and the values live in an explicit JavaScript-number type;
JavaScript `undefined` becomes Option.
-/

namespace Irrigation

/-! ### Zone commands (IrrigationSystem.setZoneActive / setZoneRuntime)

A zone record holds the configuration (enabled flag, runtime) and the live
run state (active flag, remaining duration, valve open flags).  In system.js,
setZoneActive returns immediately unless the zone is a known configured zone
AND enabled; when the system is powered on and the request is ACTIVE it first
forces EVERY currently-running zone to INACTIVE (closing its valves), then
opens the target zone's first valve and marks it active with remaining
duration equal to its configured runtime.  setZoneRuntime returns immediately
when the value is non-numeric (isNaN) or the zone is unknown; any numeric
value — including one above the system-wide maximum — is stored unchecked. -/

structure Zone where
  enabled : Bool
  runtime : ℚ
  remaining : ℚ
  active : Bool
  valves : List Bool
deriving DecidableEq, Repr

structure SysState where
  power : Bool
  maxRuntime : ℚ
  zones : List Zone
deriving DecidableEq, Repr

def deactivateZone (z : Zone) : Zone :=
  { z with active := false, remaining := 0, valves := z.valves.map (fun _ => false) }

def startZone (z : Zone) : Zone :=
  { z with active := true, remaining := z.runtime, valves := z.valves.set 0 true }

def activateZone (s : SysState) (i : Nat) : SysState :=
  match s.zones.get? i with
  | none => s
  | some z =>
    if z.enabled = false then s
    else if s.power = true then
      let cancelled := s.zones.map (fun w => if w.active = true then deactivateZone w else w)
      { s with zones := cancelled.set i (startZone (cancelled.getD i z)) }
    else
      s

def setZoneRuntime (s : SysState) (i : Nat) (value : Option ℚ) : SysState :=
  match value with
  | none => s
  | some v =>
    match s.zones.get? i with
    | none => s
    | some z => { s with zones := s.zones.set i { z with runtime := v } }

/-! ### Request debouncer (IrrigationSystem.#processActiveCharacteristic)

Requests arriving within the 500 ms window are batched; at window close the
batch is scanned: `systemCount` counts entries of type 'system' or 'switch',
`valveCount` counts entries of type 'valve'.  An entry's `takeaction` flag is
cleared when (a) its type is 'system' and exactly one valve request arrived, or
(b) its type is 'valve', exactly one system/switch request arrived and the
number of valve requests equals the number of enabled zones.  Entries whose
flag survives execute (setPower for system/switch, setZoneActive for valve). -/

inductive ReqType where
  | system
  | switch
  | valve
deriving DecidableEq, Repr

structure Request where
  rtype : ReqType
  value : Bool
deriving DecidableEq, Repr

def systemTypeCount (batch : List Request) : Nat :=
  (batch.filter (fun r => r.rtype = ReqType.system ∨ r.rtype = ReqType.switch)).length

def valveTypeCount (batch : List Request) : Nat :=
  (batch.filter (fun r => r.rtype = ReqType.valve)).length

def takeaction (batch : List Request) (enabledZones : Nat) (r : Request) : Bool :=
  if r.rtype = ReqType.system ∧ valveTypeCount batch = 1 then
    false
  else if r.rtype = ReqType.valve ∧ systemTypeCount batch = 1 ∧
      enabledZones = valveTypeCount batch then
    false
  else
    true

/-! ### Pause / power scheduler (IrrigationSystem.addServices pause timer)

Every 5 seconds the timer checks `pauseTimeout !== 0 && now >= pauseTimeout`
and, when true, calls `setPower(true)`.  In system.js the `setPower(true)`
branch sets `deviceData.power = true` but never writes `pauseTimeout`. -/

structure PowerState where
  power : Bool
  pauseTimeout : Int
deriving DecidableEq, Repr

def setPowerOn (s : PowerState) : PowerState :=
  { power := true, pauseTimeout := s.pauseTimeout }

def pauseTickFires (nowSec : Int) (s : PowerState) : Bool :=
  s.pauseTimeout ≠ 0 ∧ nowSec ≥ s.pauseTimeout

def pauseTick (nowSec : Int) (s : PowerState) : PowerState :=
  if pauseTickFires nowSec s then setPowerOn s else s

/-! ### Zone countdown and virtual-zone valve sequencing
(IrrigationSystem.setZoneActive running timer in system.js; equivalently
IrrigationSystem.#zoneRunningTimer in the accfactory version)

A running zone holds an ordered list of valves, modelled by their open flags.
On activation the first valve opens.  Each 1-second tick, while
now < endTime, walks the valve list in order: an open valve at index i whose
computed end time  endTime - (duration / N) * (N - i - 1)  has been reached
is closed and valve i+1 opened, unless i is the last index.  A tick with
now > endTime deactivates the zone, closing every valve. -/

structure ZoneRunState where
  valves : List Bool
  active : Bool
deriving DecidableEq, Repr

def valveEndTime (endTime : Int) (duration : ℚ) (n i : Nat) : ℚ :=
  (endTime : ℚ) - (duration / (n : ℚ)) * ((n : ℚ) - (i : ℚ) - 1)

def handoffStep (endTime : Int) (duration : ℚ) (nowSec : Int)
    (l : List Bool) (i : Nat) : List Bool :=
  if l.getD i false = true then
    if (nowSec : ℚ) ≥ valveEndTime endTime duration l.length i ∧ i < l.length - 1 then
      (l.set i false).set (i + 1) true
    else
      l
  else
    l

def tickValves (endTime : Int) (duration : ℚ) (nowSec : Int) (l : List Bool) :
    List Bool :=
  (List.range l.length).foldl (handoffStep endTime duration nowSec) l

def closeAll (l : List Bool) : List Bool := l.map (fun _ => false)

def zoneTick (endTime : Int) (duration : ℚ) (nowSec : Int) (s : ZoneRunState) :
    ZoneRunState :=
  if s.active = true then
    if nowSec < endTime then
      { s with valves := tickValves endTime duration nowSec s.valves }
    else if nowSec > endTime then
      { valves := closeAll s.valves, active := false }
    else
      s
  else
    s

def activateValves (n : Nat) : List Bool := (List.replicate n false).set 0 true

def zoneStart (n : Nat) : ZoneRunState := { valves := activateValves n, active := true }

def countOpen (l : List Bool) : Nat := l.count true

def applyTicks (endTime : Int) (duration : ℚ) (times : List Int)
    (s : ZoneRunState) : ZoneRunState :=
  times.foldl (fun t nowSec => zoneTick endTime duration nowSec t) s

/-! ### C1 scenario: zone with runtime 300 s and 3 valves, activated at t = 0,
so endTime = 300 and ticks run at t = 1, 2, 3, ... -/

def c1State : Nat → ZoneRunState
  | 0 => zoneStart 3
  | k + 1 => zoneTick 300 300 ((k + 1 : Nat) : Int) (c1State k)

/-! ### Flow events and the leak heuristic (IrrigationSystem.messageServices,
FLOWEVENT branch)

Each flow sample is appended to the buffer; if the newest sample's time
exceeds the oldest's by more than FLOWDATABUFFER (30000 ms) one element is
shifted off.  With a leak sensor configured: if no zone is running and more
than 80% of the buffered samples carry non-zero volume, and additionally the
last-valve-close guard passes (never closed, or now-in-seconds minus the
close time exceeds WATERLEAKTIMEOUT = 10000), the leak flag is raised; if no
zone is running and no buffered sample is non-zero, the flag is cleared. -/

def WATERLEAKTIMEOUT : Int := 10000

def FLOWDATABUFFER : Int := 30000

structure FlowSample where
  time : Int
  volume : ℚ
deriving DecidableEq, Repr

structure LeakState where
  flowData : List FlowSample
  leakDetected : Bool
  lastValveClose : Int
deriving DecidableEq, Repr

def updateFlowBuffer (fd : List FlowSample) (msg : FlowSample) : List FlowSample :=
  let fd2 := fd ++ [msg]
  match fd2.head? with
  | some first => if msg.time - first.time > FLOWDATABUFFER then fd2.tail else fd2
  | none => fd2

def nonZeroCount (fd : List FlowSample) : Nat :=
  (fd.filter (fun s => s.volume ≠ 0)).length

def nonZeroFraction (fd : List FlowSample) : ℚ :=
  ((nonZeroCount fd : ℚ) / (fd.length : ℚ)) * 100

def processFlowEvent (leakSensor : Bool) (runningZones : Nat) (nowSec : Int)
    (st : LeakState) (msg : FlowSample) : LeakState :=
  let fd := updateFlowBuffer st.flowData msg
  if leakSensor = false then
    { st with flowData := fd }
  else
    let afterSet :=
      if runningZones = 0 ∧ nonZeroFraction fd > 80 ∧
          (st.lastValveClose = 0 ∨
            (st.lastValveClose ≠ 0 ∧ nowSec - st.lastValveClose > WATERLEAKTIMEOUT)) then
        true
      else
        st.leakDetected
    let afterClear :=
      if runningZones = 0 ∧ nonZeroCount fd = 0 then false else afterSet
    { flowData := fd, leakDetected := afterClear, lastValveClose := st.lastValveClose }

def c3Buffer : List FlowSample :=
  (List.range 29).map (fun k => ⟨1000 * (k : Int), if k < 24 then 1 else 0⟩)

def c3Start : LeakState := ⟨c3Buffer, false, 980⟩

def c3Msg : FlowSample := ⟨29000, 1⟩

def dZone : Zone := ⟨false, 0, 0, false, []⟩

def c7Sys : SysState :=
  ⟨true, 7200,
    [⟨true, 300, 50, true, [true]⟩, ⟨true, 300, 100, true, [true]⟩,
      ⟨true, 300, 0, false, [false]⟩]⟩

def c8Sys : SysState :=
  ⟨true, 7200, [⟨true, 300, 0, false, [false]⟩, ⟨false, 300, 0, false, [false]⟩]⟩

/-! ### JavaScript numbers with special values

The water-tank computation can divide zero by zero (when the usable range
degenerates), which in JavaScript yields NaN, and NaN sails through the
later `< 0` / `> 100` clamps because every comparison with NaN is false.  To
keep that behaviour, tank arithmetic runs over a JavaScript-number type with
exact rational magnitudes plus NaN and the signed infinities: division by
(positive) zero yields NaN for a zero numerator and a signed infinity
otherwise, special values propagate through + - * /, and comparisons with
NaN are false. -/

inductive JSNum where
  | num (q : ℚ)
  | posInf
  | negInf
  | nan
deriving DecidableEq, Repr

def jsAdd : JSNum → JSNum → JSNum
  | .num a, .num b => .num (a + b)
  | .nan, _ => .nan
  | _, .nan => .nan
  | .posInf, .negInf => .nan
  | .negInf, .posInf => .nan
  | .posInf, _ => .posInf
  | _, .posInf => .posInf
  | .negInf, _ => .negInf
  | _, .negInf => .negInf

def jsSub : JSNum → JSNum → JSNum
  | .num a, .num b => .num (a - b)
  | .nan, _ => .nan
  | _, .nan => .nan
  | .posInf, .posInf => .nan
  | .negInf, .negInf => .nan
  | .posInf, _ => .posInf
  | .negInf, _ => .negInf
  | _, .posInf => .negInf
  | _, .negInf => .posInf

def jsMul : JSNum → JSNum → JSNum
  | .num a, .num b => .num (a * b)
  | .nan, _ => .nan
  | _, .nan => .nan
  | .posInf, .posInf => .posInf
  | .posInf, .negInf => .negInf
  | .negInf, .posInf => .negInf
  | .negInf, .negInf => .posInf
  | .posInf, .num b => if b = 0 then .nan else if 0 < b then .posInf else .negInf
  | .negInf, .num b => if b = 0 then .nan else if 0 < b then .negInf else .posInf
  | .num a, .posInf => if a = 0 then .nan else if 0 < a then .posInf else .negInf
  | .num a, .negInf => if a = 0 then .nan else if 0 < a then .negInf else .posInf

def jsDiv : JSNum → JSNum → JSNum
  | .nan, _ => .nan
  | _, .nan => .nan
  | .num a, .num b =>
    if b = 0 then
      if a = 0 then .nan else if 0 < a then .posInf else .negInf
    else
      .num (a / b)
  | .posInf, .posInf => .nan
  | .posInf, .negInf => .nan
  | .negInf, .posInf => .nan
  | .negInf, .negInf => .nan
  | .posInf, .num b => if b < 0 then .negInf else .posInf
  | .negInf, .num b => if b < 0 then .posInf else .negInf
  | .num _, .posInf => .num 0
  | .num _, .negInf => .num 0

def jsLt : JSNum → JSNum → Bool
  | .nan, _ => false
  | _, .nan => false
  | .num a, .num b => decide (a < b)
  | .negInf, .negInf => false
  | .posInf, .posInf => false
  | .negInf, _ => true
  | _, .posInf => true
  | .posInf, _ => false
  | _, .negInf => false

def jsGt (a b : JSNum) : Bool := jsLt b a

/-! ### Water tank level (WaterTank.#readUsonicSensor / scaleValue)

A raw ultrasonic reading is either the out-of-range sentinel (treated as the
sensor's minimum range, 200 mm) or a centimetre distance, converted to mm and
clamped to [USONICMINRANGE, USONICMAXRANGE] and then to the sensor mount
height — plain rational arithmetic, no division.  When the (single-sample)
average is non-zero, scaleValue rescales the clamped distance over the usable
range (sensorHeight minus minimumLevel), dividing by usable-range minus the
200 mm minimum, and the percentage is level / usable-range * 100, clamped to
[0, 100]; both divisions run over JSNum, so degenerate usable ranges produce
NaN exactly as the JavaScript does. -/

inductive UsonicReading where
  | outOfRange
  | distance (cm : ℚ)

def USONICMINRANGE : ℚ := 200

def USONICMAXRANGE : ℚ := 4500

def scaleValue (value sourceRangeMin sourceRangeMax targetRangeMin targetRangeMax : ℚ) : JSNum :=
  let v1 := if value < sourceRangeMin then sourceRangeMin else value
  let v2 := if v1 > sourceRangeMax then sourceRangeMax else v1
  jsAdd
    (jsDiv (JSNum.num ((v2 - sourceRangeMin) * (targetRangeMax - targetRangeMin)))
      (JSNum.num (sourceRangeMax - sourceRangeMin)))
    (JSNum.num targetRangeMin)

def baselineReading (sensorHeight : ℚ) : UsonicReading → ℚ
  | .outOfRange => USONICMINRANGE
  | .distance cm =>
    let d0 := cm * 10
    let d1 := if d0 < USONICMINRANGE then USONICMINRANGE else d0
    let d2 := if d1 > USONICMAXRANGE then USONICMAXRANGE else d1
    if d2 > sensorHeight then sensorHeight else d2

def readUsonicSensor (sensorHeight minimumLevel : ℚ) (r : UsonicReading) : Option JSNum :=
  let actualDistance := baselineReading sensorHeight r
  let averageDistance := (0 + actualDistance) / 1
  if averageDistance ≠ 0 ∧ actualDistance ≠ 0 then
    let usable := sensorHeight - minimumLevel
    let waterlevel :=
      jsSub (JSNum.num usable) (scaleValue averageDistance USONICMINRANGE usable 0 usable)
    let p0 := jsMul (jsDiv waterlevel (JSNum.num usable)) (JSNum.num 100)
    let p1 := if jsLt p0 (JSNum.num 0) then JSNum.num 0 else p0
    let p2 := if jsGt p1 (JSNum.num 100) then JSNum.num 100 else p1
    some p2
  else
    none

/-! ### Tank aggregation (IrrigationSystem.messageServices, WATERLEVEL branch)

The handler folds `total = total + tank.percentage` over every created tank
and then clamps totals above 100 down to 100.  A tank that has not produced a
successful reading still has `percentage = undefined`, and a tank whose
reading went through a degenerate usable range stores `percentage = NaN`;
adding either yields NaN, which the clamp does not touch.  `none` models the
undefined-or-NaN value, `some p` a stored numeric percentage. -/

theorem count_set_true_le (l : List Bool) (i : Nat) :
    (l.set i true).count true ≤ l.count true + 1 := by
  induction l generalizing i with
  | nil => simp
  | cons a t ih =>
    cases i with
    | zero =>
      cases a <;> simp [List.set_cons_zero, List.count_cons]
    | succ j =>
      simp only [List.set_cons_succ, List.count_cons]
      have := ih j
      omega

theorem count_set_false_succ_le (l : List Bool) (i : Nat)
    (h : l.getD i false = true) :
    (l.set i false).count true + 1 ≤ l.count true := by
  induction l generalizing i with
  | nil => simp at h
  | cons a t ih =>
    cases i with
    | zero =>
      simp only [List.getD_cons_zero] at h
      simp only [List.set_cons_zero, List.count_cons, h]
      simp
    | succ j =>
      simp only [List.getD_cons_succ] at h
      simp only [List.set_cons_succ, List.count_cons]
      have := ih j h
      omega

theorem handoffStep_count_le (endTime : Int) (duration : ℚ) (nowSec : Int)
    (l : List Bool) (i : Nat) :
    (handoffStep endTime duration nowSec l i).count true ≤ l.count true := by
  unfold handoffStep
  split
  · split
    · rename_i hopen _
      have h1 := count_set_true_le (l.set i false) (i + 1)
      have h2 := count_set_false_succ_le l i hopen
      omega
    · exact le_refl _
  · exact le_refl _

theorem foldl_handoff_count_le (endTime : Int) (duration : ℚ) (nowSec : Int)
    (idxs : List Nat) (l : List Bool) :
    (idxs.foldl (handoffStep endTime duration nowSec) l).count true ≤ l.count true := by
  induction idxs generalizing l with
  | nil => exact le_refl _
  | cons i rest ih =>
    simp only [List.foldl_cons]
    exact le_trans (ih _) (handoffStep_count_le endTime duration nowSec l i)

theorem tickValves_count_le (endTime : Int) (duration : ℚ) (nowSec : Int)
    (l : List Bool) :
    (tickValves endTime duration nowSec l).count true ≤ l.count true :=
  foldl_handoff_count_le endTime duration nowSec (List.range l.length) l

theorem zoneTick_count_le (endTime : Int) (duration : ℚ) (nowSec : Int)
    (s : ZoneRunState) :
    countOpen (zoneTick endTime duration nowSec s).valves ≤ countOpen s.valves := by
  unfold zoneTick countOpen
  split
  · split
    · exact tickValves_count_le endTime duration nowSec s.valves
    · split
      · simp [closeAll, List.count_replicate]
      · exact le_refl _
  · exact le_refl _

theorem countOpen_zoneStart_le_one (n : Nat) : countOpen (zoneStart n).valves ≤ 1 := by
  unfold countOpen zoneStart activateValves
  cases n with
  | zero => simp
  | succ m => simp [List.replicate_succ, List.count_replicate]

/-! ## C2: at most one valve of a zone is open at any instant of a run -/

/-- C2: starting from zone activation (first valve open, the rest closed) and
applying the countdown tick at any sequence of instants, at most one valve of
the zone is ever open — for physical zones and virtual zones of any size. -/
theorem at_most_one_valve_open (endTime : Int) (duration : ℚ)
    (times : List Int) (n : Nat) :
    countOpen (applyTicks endTime duration times (zoneStart n)).valves ≤ 1 := by
  have key : ∀ (ts : List Int) (s : ZoneRunState), countOpen s.valves ≤ 1 →
      countOpen (applyTicks endTime duration ts s).valves ≤ 1 := by
    intro ts
    induction ts with
    | nil => intro s hs; exact hs
    | cons t rest ih =>
      intro s hs
      simp only [applyTicks, List.foldl_cons]
      exact ih _ (le_trans (zoneTick_count_le endTime duration t s) hs)
  exact key times (zoneStart n) (countOpen_zoneStart_le_one n)

/-! Pointwise evaluation lemmas for the countdown tick. -/

theorem handoffStep_closed (endTime : Int) (duration : ℚ) (nowSec : Int)
    (l : List Bool) (i : Nat) (h : l.getD i false = false) :
    handoffStep endTime duration nowSec l i = l := by
  unfold handoffStep
  rw [h]
  simp

theorem handoffStep_not_due (endTime : Int) (duration : ℚ) (nowSec : Int)
    (l : List Bool) (i : Nat)
    (h : ¬ ((nowSec : ℚ) ≥ valveEndTime endTime duration l.length i ∧
        i < l.length - 1)) :
    handoffStep endTime duration nowSec l i = l := by
  unfold handoffStep
  by_cases ho : l.getD i false = true
  · rw [if_pos ho, if_neg h]
  · rw [if_neg ho]

theorem handoffStep_due (endTime : Int) (duration : ℚ) (nowSec : Int)
    (l : List Bool) (i : Nat) (ho : l.getD i false = true)
    (h : (nowSec : ℚ) ≥ valveEndTime endTime duration l.length i ∧
        i < l.length - 1) :
    handoffStep endTime duration nowSec l i = (l.set i false).set (i + 1) true := by
  unfold handoffStep
  rw [if_pos ho, if_pos h]

theorem c1_valveEndTime_0 : valveEndTime 300 300 3 0 = 100 := by
  unfold valveEndTime
  norm_num

theorem c1_valveEndTime_1 : valveEndTime 300 300 3 1 = 200 := by
  unfold valveEndTime
  norm_num

theorem c1_tickValves_first (k : Int) (h : (k : ℚ) < 100) :
    tickValves 300 300 k [true, false, false] = [true, false, false] := by
  have s0 : handoffStep 300 300 k [true, false, false] 0 = [true, false, false] := by
    refine handoffStep_not_due 300 300 k [true, false, false] 0 ?_
    rintro ⟨hc, -⟩
    rw [show ([true, false, false] : List Bool).length = 3 from rfl,
      c1_valveEndTime_0] at hc
    linarith
  have s1 : handoffStep 300 300 k [true, false, false] 1 = [true, false, false] :=
    handoffStep_closed 300 300 k [true, false, false] 1 rfl
  have s2 : handoffStep 300 300 k [true, false, false] 2 = [true, false, false] :=
    handoffStep_closed 300 300 k [true, false, false] 2 rfl
  show (List.range 3).foldl (handoffStep 300 300 k) [true, false, false] = _
  rw [show List.range 3 = [0, 1, 2] from rfl]
  simp only [List.foldl_cons, List.foldl_nil]
  rw [s0, s1, s2]

theorem c1_tickValves_handoff01 (k : Int) (h1 : (100 : ℚ) ≤ (k : ℚ))
    (h2 : (k : ℚ) < 200) :
    tickValves 300 300 k [true, false, false] = [false, true, false] := by
  have hcond : (k : ℚ) ≥ valveEndTime 300 300 ([true, false, false] : List Bool).length 0 ∧
      0 < ([true, false, false] : List Bool).length - 1 := by
    refine ⟨?_, by norm_num⟩
    rw [show ([true, false, false] : List Bool).length = 3 from rfl, c1_valveEndTime_0]
    exact h1
  have s0 : handoffStep 300 300 k [true, false, false] 0 = [false, true, false] := by
    rw [handoffStep_due 300 300 k [true, false, false] 0 rfl hcond]
    rfl
  have s1 : handoffStep 300 300 k [false, true, false] 1 = [false, true, false] := by
    refine handoffStep_not_due 300 300 k [false, true, false] 1 ?_
    rintro ⟨hc, -⟩
    rw [show ([false, true, false] : List Bool).length = 3 from rfl,
      c1_valveEndTime_1] at hc
    linarith
  have s2 : handoffStep 300 300 k [false, true, false] 2 = [false, true, false] :=
    handoffStep_closed 300 300 k [false, true, false] 2 rfl
  show (List.range 3).foldl (handoffStep 300 300 k) [true, false, false] = _
  rw [show List.range 3 = [0, 1, 2] from rfl]
  simp only [List.foldl_cons, List.foldl_nil]
  rw [s0, s1, s2]

theorem c1_tickValves_second (k : Int) (h : (k : ℚ) < 200) :
    tickValves 300 300 k [false, true, false] = [false, true, false] := by
  have s0 : handoffStep 300 300 k [false, true, false] 0 = [false, true, false] :=
    handoffStep_closed 300 300 k [false, true, false] 0 rfl
  have s1 : handoffStep 300 300 k [false, true, false] 1 = [false, true, false] := by
    refine handoffStep_not_due 300 300 k [false, true, false] 1 ?_
    rintro ⟨hc, -⟩
    rw [show ([false, true, false] : List Bool).length = 3 from rfl,
      c1_valveEndTime_1] at hc
    linarith
  have s2 : handoffStep 300 300 k [false, true, false] 2 = [false, true, false] :=
    handoffStep_closed 300 300 k [false, true, false] 2 rfl
  show (List.range 3).foldl (handoffStep 300 300 k) [false, true, false] = _
  rw [show List.range 3 = [0, 1, 2] from rfl]
  simp only [List.foldl_cons, List.foldl_nil]
  rw [s0, s1, s2]

theorem c1_tickValves_handoff12 (k : Int) (h1 : (200 : ℚ) ≤ (k : ℚ)) :
    tickValves 300 300 k [false, true, false] = [false, false, true] := by
  have s0 : handoffStep 300 300 k [false, true, false] 0 = [false, true, false] :=
    handoffStep_closed 300 300 k [false, true, false] 0 rfl
  have hcond : (k : ℚ) ≥ valveEndTime 300 300 ([false, true, false] : List Bool).length 1 ∧
      1 < ([false, true, false] : List Bool).length - 1 := by
    refine ⟨?_, by norm_num⟩
    rw [show ([false, true, false] : List Bool).length = 3 from rfl, c1_valveEndTime_1]
    exact h1
  have s1 : handoffStep 300 300 k [false, true, false] 1 = [false, false, true] := by
    rw [handoffStep_due 300 300 k [false, true, false] 1 rfl hcond]
    rfl
  have s2 : handoffStep 300 300 k [false, false, true] 2 = [false, false, true] := by
    refine handoffStep_not_due 300 300 k [false, false, true] 2 ?_
    rintro ⟨-, hlt⟩
    simp at hlt
  show (List.range 3).foldl (handoffStep 300 300 k) [false, true, false] = _
  rw [show List.range 3 = [0, 1, 2] from rfl]
  simp only [List.foldl_cons, List.foldl_nil]
  rw [s0, s1, s2]

theorem c1_tickValves_third (k : Int) :
    tickValves 300 300 k [false, false, true] = [false, false, true] := by
  have s0 : handoffStep 300 300 k [false, false, true] 0 = [false, false, true] :=
    handoffStep_closed 300 300 k [false, false, true] 0 rfl
  have s1 : handoffStep 300 300 k [false, false, true] 1 = [false, false, true] :=
    handoffStep_closed 300 300 k [false, false, true] 1 rfl
  have s2 : handoffStep 300 300 k [false, false, true] 2 = [false, false, true] := by
    refine handoffStep_not_due 300 300 k [false, false, true] 2 ?_
    rintro ⟨-, hlt⟩
    simp at hlt
  show (List.range 3).foldl (handoffStep 300 300 k) [false, false, true] = _
  rw [show List.range 3 = [0, 1, 2] from rfl]
  simp only [List.foldl_cons, List.foldl_nil]
  rw [s0, s1, s2]

theorem zoneTick_running (nowSec : Int) (l : List Bool) (h : nowSec < 300) :
    zoneTick 300 300 nowSec ⟨l, true⟩ =
      ⟨tickValves 300 300 nowSec l, true⟩ := by
  unfold zoneTick
  rw [if_pos rfl, if_pos h]

theorem zoneTick_at_end (l : List Bool) :
    zoneTick 300 300 300 ⟨l, true⟩ = ⟨l, true⟩ := by
  unfold zoneTick
  rw [if_pos rfl, if_neg (by omega), if_neg (by omega)]

theorem zoneTick_after_end (nowSec : Int) (l : List Bool) (h : nowSec > 300) :
    zoneTick 300 300 nowSec ⟨l, true⟩ = ⟨closeAll l, false⟩ := by
  unfold zoneTick
  rw [if_pos rfl, if_neg (by omega), if_pos h]

theorem c1State_succ (m : Nat) :
    c1State (m + 1) = zoneTick 300 300 ((m + 1 : Nat) : Int) (c1State m) := rfl

theorem c1_run_first (k : Nat) (hk : k ≤ 99) :
    c1State k = ⟨[true, false, false], true⟩ := by
  induction k with
  | zero => rfl
  | succ m ih =>
    have hm : m ≤ 99 := by omega
    have hq : ((m + 1 : Nat) : ℚ) < 100 := by
      have : ((m + 1 : Nat) : ℚ) ≤ 99 := by exact_mod_cast hk
      linarith
    rw [c1State_succ, ih hm, zoneTick_running _ _ (by omega),
      c1_tickValves_first _ (by exact_mod_cast hq)]

theorem c1_run_second (k : Nat) (h1 : 100 ≤ k) (h2 : k ≤ 199) :
    c1State k = ⟨[false, true, false], true⟩ := by
  induction k, h1 using Nat.le_induction with
  | base =>
    rw [show (100 : Nat) = 99 + 1 from rfl, c1State_succ,
      c1_run_first 99 (by omega), zoneTick_running _ _ (by omega),
      c1_tickValves_handoff01 _ (by norm_num) (by norm_num)]
  | succ m hm ih =>
    have hq : ((m + 1 : Nat) : ℚ) < 200 := by
      have : ((m + 1 : Nat) : ℚ) ≤ 199 := by exact_mod_cast h2
      linarith
    rw [c1State_succ, ih (by omega), zoneTick_running _ _ (by omega),
      c1_tickValves_second _ (by exact_mod_cast hq)]

theorem c1_run_third (k : Nat) (h1 : 200 ≤ k) (h2 : k ≤ 300) :
    c1State k = ⟨[false, false, true], true⟩ := by
  induction k, h1 using Nat.le_induction with
  | base =>
    rw [show (200 : Nat) = 199 + 1 from rfl, c1State_succ,
      c1_run_second 199 (by omega) (by omega), zoneTick_running _ _ (by omega),
      c1_tickValves_handoff12 _ (by norm_num)]
  | succ m hm ih =>
    rcases Nat.lt_or_ge (m + 1) 300 with hlt1 | hge1
    · rw [c1State_succ, ih (by omega), zoneTick_running _ _ (by omega),
        c1_tickValves_third]
    · have hm300 : m + 1 = 300 := by omega
      rw [c1State_succ, ih (by omega), hm300]
      exact zoneTick_at_end [false, false, true]

theorem c1_run_done : c1State 301 = ⟨[false, false, false], false⟩ := by
  rw [show (301 : Nat) = 300 + 1 from rfl, c1State,
    c1_run_third 300 (by omega) (by omega),
    zoneTick_after_end _ _ (by norm_num)]
  rfl

/-! ## C1: virtual-zone sequencing for runtime 300 s, three valves -/

/-- C1 (amended): for a zone with runtime 300 s and 3 valves, the countdown
tick hands over at the per-valve end times endTime - (300/3)*(3-i-1): valve
0 is the sole open valve at seconds 0-99, valve 1 at 100-199, valve 2 at
200-300, and the zone transitions to INACTIVE with all valves closed at the
first tick with now strictly greater than the end time, i.e. at t = 301 (the
tick at t = 300 satisfies neither now < endTime nor now > endTime and leaves
the zone running). -/
theorem virtual_zone_sequence_300s :
    (∀ k : Nat, k ≤ 99 → c1State k = ⟨[true, false, false], true⟩) ∧
    (∀ k : Nat, 100 ≤ k → k ≤ 199 → c1State k = ⟨[false, true, false], true⟩) ∧
    (∀ k : Nat, 200 ≤ k → k ≤ 300 → c1State k = ⟨[false, false, true], true⟩) ∧
    c1State 301 = ⟨[false, false, false], false⟩ :=
  ⟨c1_run_first, c1_run_second, c1_run_third, c1_run_done⟩

/-- Witness for C1's theorem at concrete instants of each slice. -/
theorem virtual_zone_sequence_300s_witness :
    c1State 50 = ⟨[true, false, false], true⟩ ∧
    c1State 150 = ⟨[false, true, false], true⟩ ∧
    c1State 250 = ⟨[false, false, true], true⟩ :=
  ⟨virtual_zone_sequence_300s.1 50 (by omega),
   virtual_zone_sequence_300s.2.1 150 (by omega) (by omega),
   virtual_zone_sequence_300s.2.2.1 250 (by omega) (by omega)⟩

/-- Counterexample to C1 as stated: at t = 300 the zone has NOT transitioned
to INACTIVE — valve 2 is still open and the zone is still active, because the
timer callback only deactivates when now is strictly greater than the end
time, which first happens at the t = 301 tick. -/
theorem virtual_zone_still_active_at_300 :
    c1State 300 = ⟨[false, false, true], true⟩ :=
  c1_run_third 300 (by omega) (by omega)

/-! ## C3: the 10-second settling guard after a valve close -/

/-- C3: code behaviour at the failing input.  Buffer of 30 one-second samples
with 25 non-zero (fraction 83% > 80%), zero zones running, last valve closed
20 seconds before now — yet the leak flag stays false, because the code
compares the difference in SECONDS (now - lastValveClose = 20) against the
WATERLEAKTIMEOUT constant, which is documented and defined as 10000
MILLISECONDS; the guard therefore requires more than 10000 seconds since the
close, not 10.  The claim (and the constant's own comment) say 10 seconds. -/
theorem leak_guard_unit_mismatch :
    (processFlowEvent true 0 1000 c3Start c3Msg).leakDetected = false ∧
    nonZeroFraction (updateFlowBuffer c3Start.flowData c3Msg) > 80 ∧
    (1000 : Int) - c3Start.lastValveClose = 20 := by
  have hcount : nonZeroCount (updateFlowBuffer c3Start.flowData c3Msg) = 25 := by decide
  have hlen : (updateFlowBuffer c3Start.flowData c3Msg).length = 30 := by decide
  have hfrac : nonZeroFraction (updateFlowBuffer c3Start.flowData c3Msg) > 80 := by
    unfold nonZeroFraction
    rw [hcount, hlen]
    norm_num
  refine ⟨?_, hfrac, by decide⟩
  simp only [processFlowEvent]
  rw [if_neg (by decide : ¬ ((true : Bool) = false))]
  rw [if_neg ?_, if_neg ?_]
  · rfl
  · rintro ⟨-, -, hg | ⟨-, hgt⟩⟩
    · revert hg
      decide
    · revert hgt
      decide
  · rintro ⟨-, hc⟩
    rw [hcount] at hc
    exact absurd hc (by omega)

/-! ## C4: leak-flag transition discipline -/

/-- C4: the leak flag never changes while any zone is running; when it flips
from false to true zero zones were running and the non-zero-sample fraction
of the updated buffer exceeds 80%; when it flips from true to false zero
zones were running and the updated buffer holds no non-zero sample (fraction
exactly 0). -/
theorem leak_flag_transition_discipline (leakSensor : Bool) (runningZones : Nat)
    (nowSec : Int) (st : LeakState) (msg : FlowSample) :
    (runningZones ≠ 0 →
      (processFlowEvent leakSensor runningZones nowSec st msg).leakDetected =
        st.leakDetected) ∧
    (st.leakDetected = false →
      (processFlowEvent leakSensor runningZones nowSec st msg).leakDetected = true →
      runningZones = 0 ∧ nonZeroFraction (updateFlowBuffer st.flowData msg) > 80) ∧
    (st.leakDetected = true →
      (processFlowEvent leakSensor runningZones nowSec st msg).leakDetected = false →
      runningZones = 0 ∧ nonZeroCount (updateFlowBuffer st.flowData msg) = 0 ∧
        nonZeroFraction (updateFlowBuffer st.flowData msg) = 0) := by
  by_cases hls : leakSensor = false
  · simp only [processFlowEvent, if_pos hls]
    refine ⟨fun _ => trivial, ?_, ?_⟩
    · intro h1 h2
      rw [h1] at h2
      exact absurd h2 (by simp)
    · intro h1 h2
      rw [h1] at h2
      exact absurd h2 (by simp)
  · simp only [processFlowEvent, if_neg hls]
    by_cases hclear : runningZones = 0 ∧ nonZeroCount (updateFlowBuffer st.flowData msg) = 0
    · rw [if_pos hclear]
      refine ⟨fun hrun => absurd hclear.1 hrun, ?_, ?_⟩
      · intro _ h2
        exact absurd h2 (by simp)
      · intro _ _
        refine ⟨hclear.1, hclear.2, ?_⟩
        unfold nonZeroFraction
        rw [hclear.2]
        norm_num
    · rw [if_neg hclear]
      by_cases hset : runningZones = 0 ∧
          nonZeroFraction (updateFlowBuffer st.flowData msg) > 80 ∧
          (st.lastValveClose = 0 ∨
            (st.lastValveClose ≠ 0 ∧ nowSec - st.lastValveClose > WATERLEAKTIMEOUT))
      · rw [if_pos hset]
        refine ⟨fun hrun => absurd hset.1 hrun, ?_, ?_⟩
        · intro _ _
          exact ⟨hset.1, hset.2.1⟩
        · intro _ h2
          exact absurd h2 (by simp)
      · rw [if_neg hset]
        refine ⟨fun _ => rfl, ?_, ?_⟩
        · intro h1 h2
          rw [h1] at h2
          exact absurd h2 (by simp)
        · intro h1 h2
          rw [h1] at h2
          exact absurd h2 (by simp)

/-- Witness for C4's theorem: a flow event processed while one zone is
running leaves the leak flag untouched. -/
theorem leak_flag_transition_discipline_witness :
    (processFlowEvent true 1 0 ⟨[], false, 0⟩ ⟨0, 1⟩).leakDetected = false :=
  (leak_flag_transition_discipline true 1 0 ⟨[], false, 0⟩ ⟨0, 1⟩).1 (by omega)

/-! ## C5: debounce of one system request plus K zone requests -/

/-- C5 (amended): in a debounce batch with exactly one system-type request
(system or switch) and K valve-type requests, where K equals the number of
enabled zones and K ≥ 2, every valve-type request is suppressed and the
system-type request executes.  (For K = 1 the system request is itself
suppressed by the single-valve rule, so the claim's "including K = 1" fails.) -/
theorem debounce_system_wins (batch : List Request) (enabledZones k : Nat)
    (r : Request) (hsys : systemTypeCount batch = 1) (hval : valveTypeCount batch = k)
    (henab : enabledZones = k) (hk : 2 ≤ k) :
    (r.rtype = ReqType.valve → takeaction batch enabledZones r = false) ∧
    ((r.rtype = ReqType.system ∨ r.rtype = ReqType.switch) →
      takeaction batch enabledZones r = true) := by
  constructor
  · intro hr
    unfold takeaction
    rw [if_neg, if_pos]
    · exact ⟨hr, hsys, henab.trans hval.symm⟩
    · rintro ⟨hrs, -⟩
      rw [hr] at hrs
      exact ReqType.noConfusion hrs
  · intro hr
    unfold takeaction
    rw [if_neg, if_neg]
    · rintro ⟨hrv, -, -⟩
      rcases hr with hr | hr <;> rw [hr] at hrv <;> exact ReqType.noConfusion hrv
    · rintro ⟨-, hone⟩
      rw [hval] at hone
      omega

/-- Witness for C5's theorem at the concrete batch
[system, valve, valve] with 2 enabled zones. -/
theorem debounce_system_wins_witness :
    takeaction [⟨ReqType.system, true⟩, ⟨ReqType.valve, true⟩, ⟨ReqType.valve, true⟩] 2
      ⟨ReqType.system, true⟩ = true :=
  (debounce_system_wins
    [⟨ReqType.system, true⟩, ⟨ReqType.valve, true⟩, ⟨ReqType.valve, true⟩] 2 2
    ⟨ReqType.system, true⟩ (by decide) (by decide) rfl (by decide)).2 (Or.inl rfl)

/-- Counterexample to C5 as stated: for K = 1 (one system request, one valve
request, one enabled zone) the system-type request does NOT execute — the
first debounce rule ('system' with valveCount = 1) suppresses it, so no
action at all executes. -/
theorem debounce_k1_system_suppressed :
    takeaction [⟨ReqType.system, true⟩, ⟨ReqType.valve, true⟩] 1
      ⟨ReqType.system, true⟩ = false := by
  decide

/-! ## C7: activation cancels running zones -/

/-- C7 (amended): activating an enabled zone while the system is powered on
first forces EVERY currently-running zone to INACTIVE — irrespective of its
remaining duration — before the new zone starts; system.js keeps at most one
zone running by cancelling all running zones, with no least-remaining
selection and no consultation of the configured maximum. -/
theorem activate_cancels_all_running (s : SysState) (i j : Nat)
    (hp : s.power = true) (hi : i < s.zones.length)
    (he : (s.zones.getD i dZone).enabled = true)
    (hj : j < s.zones.length) (hij : j ≠ i) :
    ((activateZone s i).zones.getD j dZone).active = false ∧
    ((activateZone s i).zones.getD i dZone).active = true := by
  have hz : s.zones.get? i = some (s.zones.getD i dZone) := by
    simp [List.getD_eq_getElem?_getD, List.getElem?_eq_getElem hi]
  unfold activateZone
  rw [hz]
  dsimp only
  rw [if_neg (by rw [he]; simp), if_pos hp]
  have hlen : (s.zones.map
      (fun w => if w.active = true then deactivateZone w else w)).length =
      s.zones.length := by
    simp
  constructor
  · simp only [List.getD_eq_getElem?_getD]
    rw [List.getElem?_set_ne (Ne.symm hij), List.getElem?_map,
      List.getElem?_eq_getElem hj]
    by_cases hw : s.zones[j].active = true
    · simp [hw, deactivateZone]
    · simp only [Option.map_some', Option.getD_some]
      rw [if_neg hw]
      simpa using hw
  · simp only [List.getD_eq_getElem?_getD]
    rw [List.getElem?_set_self (by rw [hlen]; exact hi)]
    simp [startZone]

/-- Witness for C7's theorem: in a three-zone system with zones 0 and 1
running, activating zone 2 leaves zone 1 inactive and zone 2 active. -/
theorem activate_cancels_all_running_witness :
    ((activateZone c7Sys 2).zones.getD 1 dZone).active = false ∧
    ((activateZone c7Sys 2).zones.getD 2 dZone).active = true :=
  activate_cancels_all_running c7Sys 2 1 rfl (by decide) (by decide) (by decide)
    (by decide)

/-- Counterexample to C7 as stated: zone 1 runs with remaining duration 100
while zone 0 runs with remaining duration 50; activating zone 2 deactivates
zone 1 as well, although its remaining duration is the GREATER of the two —
the claim says such a zone is not the one deactivated. -/
theorem longer_remaining_zone_also_cancelled :
    (c7Sys.zones.getD 0 dZone).remaining < (c7Sys.zones.getD 1 dZone).remaining ∧
    (c7Sys.zones.getD 1 dZone).active = true ∧
    ((activateZone c7Sys 2).zones.getD 1 dZone).active = false := by
  decide

/-! ## C8: zone commands fail closed on invalid input -/

/-- C8 (amended): a command naming an unknown zone, a non-numeric runtime
value, or activation of a disabled zone leaves the system state completely
unchanged (so a disabled zone never becomes active and none of its valves
open).  An out-of-range numeric runtime, however, is NOT rejected — see the
counterexample. -/
theorem zone_commands_fail_closed (s : SysState) (i : Nat) (v : Option ℚ) :
    (s.zones.get? i = none → activateZone s i = s ∧ setZoneRuntime s i v = s) ∧
    setZoneRuntime s i none = s ∧
    (∀ z, s.zones.get? i = some z → z.enabled = false → activateZone s i = s) := by
  refine ⟨?_, rfl, ?_⟩
  · intro hn
    constructor
    · unfold activateZone
      rw [hn]
    · unfold setZoneRuntime
      cases v with
      | none => rfl
      | some w => rw [hn]
  · intro z hz hdis
    unfold activateZone
    rw [hz]
    dsimp only
    rw [if_pos hdis]

/-- Witness for C8's theorem: unknown index, non-numeric runtime and disabled
zone each leave the concrete two-zone system untouched. -/
theorem zone_commands_fail_closed_witness :
    setZoneRuntime c8Sys 0 none = c8Sys ∧ activateZone c8Sys 5 = c8Sys ∧
    activateZone c8Sys 1 = c8Sys :=
  ⟨(zone_commands_fail_closed c8Sys 0 none).2.1,
   ((zone_commands_fail_closed c8Sys 5 none).1 rfl).1,
   (zone_commands_fail_closed c8Sys 1 none).2.2 ⟨false, 300, 0, false, [false]⟩ rfl rfl⟩

/-- Counterexample to C8 as stated: setZoneRuntime accepts an out-of-range
numeric runtime — 999999 seconds, far above the system-wide maximum of 7200 —
and stores it, changing the state; the runtime cap is enforced only at
configuration load and by the HomeKit characteristic bounds, not here. -/
theorem runtime_not_capped :
    ((setZoneRuntime c8Sys 0 (some 999999)).zones.getD 0 dZone).runtime = 999999 ∧
    c8Sys.maxRuntime < 999999 ∧
    setZoneRuntime c8Sys 0 (some 999999) ≠ c8Sys := by
  decide

/-! ## C9: range of the computed tank percentage -/

theorem jsLt_num (a b : ℚ) : jsLt (JSNum.num a) (JSNum.num b) = decide (a < b) := rfl

theorem jsGt_num (a b : ℚ) : jsGt (JSNum.num a) (JSNum.num b) = decide (b < a) := rfl

theorem jsDiv_num_of_ne (a b : ℚ) (hb : b ≠ 0) :
    jsDiv (JSNum.num a) (JSNum.num b) = JSNum.num (a / b) := by
  show (if b = 0 then
      if a = 0 then JSNum.nan else if 0 < a then JSNum.posInf else JSNum.negInf
    else JSNum.num (a / b)) = JSNum.num (a / b)
  rw [if_neg hb]

theorem scaleValue_num (value smin smax tmin tmax : ℚ) (hden : smax - smin ≠ 0) :
    ∃ q : ℚ, scaleValue value smin smax tmin tmax = JSNum.num q := by
  unfold scaleValue
  dsimp only
  rw [jsDiv_num_of_ne _ _ hden]
  exact ⟨_, rfl⟩

theorem jsClamp_eval (x : ℚ) :
    (if jsGt (if jsLt (JSNum.num x) (JSNum.num 0) then JSNum.num 0 else JSNum.num x)
        (JSNum.num 100) then JSNum.num 100
      else if jsLt (JSNum.num x) (JSNum.num 0) then JSNum.num 0 else JSNum.num x) =
      JSNum.num (if (if x < 0 then 0 else x) > 100 then 100
        else if x < 0 then 0 else x) := by
  by_cases h0 : x < 0
  · have h1 : ¬ ((100 : ℚ) < 0) := by norm_num
    simp [jsLt_num, jsGt_num, h0, h1]
  · by_cases h1 : (100 : ℚ) < x
    · simp [jsLt_num, jsGt_num, h0, h1]
    · simp [jsLt_num, jsGt_num, h0, h1]

/-- C9 (amended): for every tank whose usable range (sensor height minus
minimum level) is non-zero and different from the sensor's 200 mm minimum
range, every raw reading — arbitrarily small or large distances and the
out-of-range sentinel included — that produces a percentage produces one in
[0, 100].  When the usable range equals 200 mm (or 0), the program divides
zero by zero: the percentage is NaN, which the trailing clamps do not catch —
see the counterexample. -/
theorem tank_percentage_in_range (sensorHeight minimumLevel : ℚ)
    (r : UsonicReading) (p : ℚ)
    (husable : sensorHeight - minimumLevel ≠ 0)
    (hgap : sensorHeight - minimumLevel ≠ USONICMINRANGE)
    (h : readUsonicSensor sensorHeight minimumLevel r = some (JSNum.num p)) :
    0 ≤ p ∧ p ≤ 100 := by
  unfold readUsonicSensor at h
  by_cases hc : (0 + baselineReading sensorHeight r) / 1 ≠ 0 ∧
      baselineReading sensorHeight r ≠ 0
  · rw [if_pos hc] at h
    dsimp only at h
    obtain ⟨S, hS⟩ := scaleValue_num ((0 + baselineReading sensorHeight r) / 1)
      USONICMINRANGE (sensorHeight - minimumLevel) 0 (sensorHeight - minimumLevel)
      (sub_ne_zero.mpr hgap)
    rw [hS] at h
    rw [show jsSub (JSNum.num (sensorHeight - minimumLevel)) (JSNum.num S) =
      JSNum.num (sensorHeight - minimumLevel - S) from rfl] at h
    rw [jsDiv_num_of_ne _ _ husable] at h
    rw [show jsMul
      (JSNum.num ((sensorHeight - minimumLevel - S) / (sensorHeight - minimumLevel)))
      (JSNum.num 100) =
      JSNum.num ((sensorHeight - minimumLevel - S) / (sensorHeight - minimumLevel) * 100)
      from rfl] at h
    rw [jsClamp_eval, Option.some_inj, JSNum.num.injEq] at h
    subst h
    constructor
    · split_ifs with h1 h2 <;> try norm_num
      all_goals linarith
    · split_ifs with h1 h2 <;> try norm_num
      all_goals linarith
  · rw [if_neg hc] at h
    exact absurd h (by simp)

/-- Witness for C9's theorem: a 2200 mm tank with 200 mm minimum level (usable
range 2000 mm, neither 0 nor 200) and a 120 cm raw reading yields percentage
400/9, which is within 0..100. -/
theorem tank_percentage_in_range_witness :
    (0 : ℚ) ≤ 400 / 9 ∧ (400 / 9 : ℚ) ≤ 100 :=
  tank_percentage_in_range 2200 200 (UsonicReading.distance 120) (400 / 9)
    (by norm_num) (by norm_num [USONICMINRANGE])
    (by norm_num [readUsonicSensor, baselineReading, scaleValue, jsAdd, jsSub,
      jsMul, jsDiv, jsLt, jsGt, USONICMINRANGE, USONICMAXRANGE])

/-- Counterexample to C9 as stated: a tank with complete geometry — sensor
height 400 mm, minimum level 200 mm, so usable range exactly the 200 mm
sensor minimum — and an ordinary 100 cm reading makes scaleValue divide
0 by 0: the program computes percentage NaN, which the following < 0 and
greater-than-100 clamps both miss (every comparison with NaN is false), so
the stored and emitted percentage is NaN, not a value in [0, 100]. -/
theorem degenerate_geometry_gives_nan :
    readUsonicSensor 400 200 (UsonicReading.distance 100) = some JSNum.nan ∧
    (400 : ℚ) - 200 = USONICMINRANGE := by
  constructor
  · norm_num [readUsonicSensor, baselineReading, scaleValue, jsAdd, jsSub, jsMul,
      jsDiv, jsLt, jsGt, USONICMINRANGE, USONICMAXRANGE]
  · norm_num [USONICMINRANGE]

/-! ## C10: aggregation of tank percentages -/

/-- C6: code behaviour at the failing input.  With pauseTimeout = 100 and the
system off, the 5-second tick at now = 105 fires the power-on path, but the
pause timestamp is NOT cleared, so the tick at now = 110 fires the power-on
path again — contradicting the claim that power becomes true exactly once
and the pause is cleared. -/
theorem pause_tick_fires_repeatedly :
    pauseTickFires 105 ⟨false, 100⟩ = true ∧
    pauseTick 105 ⟨false, 100⟩ = ⟨true, 100⟩ ∧
    pauseTickFires 110 (pauseTick 105 ⟨false, 100⟩) = true := by
  decide

end Irrigation
